import Mathlib

/-!
Verification development for the legislation-scraper crawl engine.

Each definition is a shallow embedding of a function of the repository,
with the Python file and line range recorded in its doc comment.  Strings
are modelled as Lean strings or as lists of characters; Python exceptions
are modelled as explicit outcome values; background threads are modelled
as explicit state-passing loops with fuel.
-/

namespace LegScraper

/-! ## Saver: path truncation (saver.py, `OneDriveSaver.truncate_file_path`) -/

/-- Components of a saved file path as `pathlib` exposes them: the `parent`
directory string, the file `stem` and the `suffix` (extension).  The rendered
path string is `parent ++ "/" ++ stem ++ suffix`, so its length is
`parent.length + 1 + stem.length + suffix.length`.  Characters are modelled as
`List Char` to mirror Python string slicing exactly. -/
structure PathParts where
  parent : List Char
  stem : List Char
  suffix : List Char
  deriving DecidableEq, Repr

/-- Length of the rendered path string, Python `len(str(file_path))`. -/
def pathLen (p : PathParts) : Nat :=
  p.parent.length + 1 + p.stem.length + p.suffix.length

/-- Model of `OneDriveSaver.truncate_file_path` (saver.py lines 84-97).  If the
rendered path is within `max_length` it is returned unchanged; otherwise
`len_to_remove = file_length - max_length` characters are cut from the end of
the stem via `file_path.stem[:-len_to_remove]`.  Python slicing yields the
empty string when `len_to_remove` exceeds the stem length, which `List.take`
with truncated subtraction reproduces exactly. -/
def truncate_file_path (file_path : PathParts) (max_length : Nat) : PathParts :=
  if pathLen file_path ≤ max_length then file_path
  else
    { file_path with
        stem := file_path.stem.take
          (file_path.stem.length - (pathLen file_path - max_length)) }

/-! ## Orchestrator: resume-year computation
(scraper.py `BaseScaper.scrape`, saver.py `OneDriveSaver._set_last_year`) -/

/-- Default engine start year, scraper.py line 27. -/
def YEAR_START : Int := 1808

/-- Maximum of a list of integers, Python `max(years)`:
`none` on the empty list. -/
def listMax : List Int → Option Int
  | [] => none
  | x :: xs => some (xs.foldl max x)

/-- Model of `OneDriveSaver._set_last_year` (saver.py lines 48-56).  The input
is `none` when the save directory does not exist, otherwise the list of its
year subdirectories parsed as integers.  The checkpoint is the maximum year
minus one, or `none` when there are no year subdirectories. -/
def set_last_year (year_dirs : Option (List Int)) : Option Int :=
  match year_dirs with
  | none => none
  | some years =>
    match listMax years with
    | none => none
    | some m => some (m - 1)

/-- Ascending list of the integers from `a` to `b` inclusive; models
`list(range(year_start, year_end + 1))` built in `BaseScaper.__init__`
(scraper.py line 107). -/
def yearsRange (a b : Int) : List Int :=
  (List.range (b + 1 - a).toNat).map (fun i : Nat => a + (i : Int))

/-- Model of the year loop of `BaseScaper.scrape` (scraper.py lines 458-493),
returning the list of years for which `_scrape_year` is invoked, in invocation
order.  `resume_from` starts at `year_start`; when the saver checkpoint
(`last_year`) exists and `year_start` equals the engine default (`forced_resume`
is false) it is replaced by the checkpoint.  Years below `resume_from` are
skipped via `continue`. -/
def scrape_processed_years (year_start year_end : Int) (last_year : Option Int) :
    List Int :=
  let forced_resume : Bool := year_start != YEAR_START
  let resume_from : Int :=
    match last_year with
    | some ly => if forced_resume then year_start else ly
    | none => year_start
  (yearsRange year_start year_end).filter (fun year => !decide (year < resume_from))

/-! ### Lemmas about `yearsRange` -/

theorem yearsRange_eq_nil {a b : Int} (h : b < a) : yearsRange a b = [] := by
  unfold yearsRange
  have h0 : (b + 1 - a).toNat = 0 := by omega
  rw [h0]
  rfl

theorem yearsRange_eq_cons {a b : Int} (h : a ≤ b) :
    yearsRange a b = a :: yearsRange (a + 1) b := by
  unfold yearsRange
  have h1 : (b + 1 - a).toNat = (b + 1 - (a + 1)).toNat + 1 := by omega
  rw [h1, List.range_succ_eq_map, List.map_cons, List.map_map]
  simp only [Nat.cast_zero, add_zero]
  refine congrArg (List.cons a) (List.map_congr_left ?_)
  intro i _
  simp only [Function.comp_apply]
  push_cast
  ring

theorem mem_yearsRange {a b y : Int} : y ∈ yearsRange a b ↔ a ≤ y ∧ y ≤ b := by
  unfold yearsRange
  simp only [List.mem_map, List.mem_range]
  constructor
  · rintro ⟨i, hi, rfl⟩
    omega
  · rintro ⟨h1, h2⟩
    exact ⟨(y - a).toNat, by omega, by omega⟩

theorem yearsRange_pairwise (a b : Int) : (yearsRange a b).Pairwise (· < ·) := by
  unfold yearsRange
  exact (List.pairwise_lt_range _).map _ (fun i j hij => by omega)

theorem filter_yearsRange (r a b : Int) :
    (yearsRange a b).filter (fun y => !decide (y < r)) = yearsRange (max r a) b := by
  generalize hn : (b + 1 - a).toNat = n
  induction n generalizing a with
  | zero =>
    have hba : b < a := by omega
    rw [yearsRange_eq_nil hba, yearsRange_eq_nil (by omega : b < max r a)]
    rfl
  | succ n ih =>
    have hab : a ≤ b := by omega
    rw [yearsRange_eq_cons hab, List.filter_cons]
    by_cases hra : r ≤ a
    · have hcond : (!decide (a < r)) = true := by
        simp only [Bool.not_eq_true', decide_eq_false_iff_not, not_lt]
        exact hra
      rw [if_pos hcond, ih (a + 1) (by omega)]
      have h1 : max r (a + 1) = a + 1 := by omega
      have h2 : max r a = a := by omega
      rw [h1, h2, yearsRange_eq_cons hab]
    · have hcond : (!decide (a < r)) = false := by
        simp only [Bool.not_eq_false', decide_eq_true_eq]
        omega
      rw [if_neg (by simp [hcond]), ih (a + 1) (by omega)]
      have h1 : max r (a + 1) = r := by omega
      have h2 : max r a = r := by omega
      rw [h1, h2]

/-- C1: with the default `yearStart` (1808) and an output directory containing
year subdirectories with maximum year `m`, the processed years are exactly the
ascending range from `max (m - 1) YEAR_START` (checkpoint `m - 1` against the
default start) through `year_end`: every year strictly below that resume year
is skipped, each year of the range is processed exactly once in ascending
order; and a caller-supplied `yearStart` different from the default ignores the
checkpoint entirely and iterates from `yearStart`. -/
theorem scrape_resume_semantics (year_end : Int) (dirs : List Int) (m : Int)
    (hm : listMax dirs = some m)
    (alt_start : Int) (halt : alt_start ≠ YEAR_START) (any_last : Option Int) :
    scrape_processed_years YEAR_START year_end (set_last_year (some dirs)) =
        yearsRange (max (m - 1) YEAR_START) year_end
    ∧ (∀ y : Int,
        y ∈ scrape_processed_years YEAR_START year_end (set_last_year (some dirs)) ↔
          (max (m - 1) YEAR_START ≤ y ∧ y ≤ year_end))
    ∧ (scrape_processed_years YEAR_START year_end
        (set_last_year (some dirs))).Pairwise (· < ·)
    ∧ scrape_processed_years alt_start year_end any_last =
        yearsRange alt_start year_end := by
  have hlast : set_last_year (some dirs) = some (m - 1) := by
    simp [set_last_year, hm]
  have hdefault :
      scrape_processed_years YEAR_START year_end (set_last_year (some dirs)) =
        yearsRange (max (m - 1) YEAR_START) year_end := by
    rw [hlast]
    unfold scrape_processed_years
    simp only [bne_self_eq_false, Bool.false_eq_true, if_false]
    exact filter_yearsRange (m - 1) YEAR_START year_end
  have hforce :
      scrape_processed_years alt_start year_end any_last =
        yearsRange alt_start year_end := by
    unfold scrape_processed_years
    have hb : (alt_start != YEAR_START) = true := bne_iff_ne.mpr halt
    have hresume :
        (match any_last with
          | some ly => if (alt_start != YEAR_START) then alt_start else ly
          | none => alt_start) = alt_start := by
      cases any_last with
      | none => rfl
      | some ly => simp [hb]
    simp only [hresume]
    rw [filter_yearsRange alt_start alt_start year_end, max_self]
  refine ⟨hdefault, ?_, ?_, hforce⟩
  · intro y
    rw [hdefault]
    exact mem_yearsRange
  · rw [hdefault]
    exact yearsRange_pairwise _ _

/-- Witness for C1: output tree contains years 2019 and 2021, so the checkpoint
is 2020 and a default-start run resumes there; a forced start year 1999 ignores
the checkpoint. -/
theorem scrape_resume_semantics_witness :
    scrape_processed_years YEAR_START 2023 (set_last_year (some [2019, 2021])) =
        yearsRange (max (2021 - 1) YEAR_START) 2023
    ∧ (∀ y : Int,
        y ∈ scrape_processed_years YEAR_START 2023 (set_last_year (some [2019, 2021])) ↔
          (max (2021 - 1) YEAR_START ≤ y ∧ y ≤ 2023))
    ∧ (scrape_processed_years YEAR_START 2023
        (set_last_year (some [2019, 2021]))).Pairwise (· < ·)
    ∧ scrape_processed_years 1999 2023 (some 5) = yearsRange 1999 2023 :=
  scrape_resume_semantics 2023 [2019, 2021] 2021 (by decide) 1999 (by decide) (some 5)

/-! ### Theorems about `truncate_file_path` -/

/-- C3 counterexample: on the path `"d/ab.json"` (parent `"d"`, stem `"ab"`,
suffix `".json"`, rendered length 9) with `max_length = 6`, the overflow is 3
but the stem only has 2 characters, so Python's `stem[:-3]` empties the stem and
the result `"d/.json"` still has length 7 > 6: the truncated path does not
respect the maximum length, refuting the claim as stated. -/
theorem truncate_file_path_can_exceed_max :
    ¬ pathLen
        (truncate_file_path
          ⟨['d'], ['a', 'b'], ['.', 'j', 's', 'o', 'n']⟩ 6) ≤ 6 := by
  decide

/-- C3 (amended): `truncate_file_path` returns the path unchanged when its
length is within `max_length`; when the path is too long and the overflow is at
most the stem length, the result has length exactly `max_length`, keeps the
suffix and the parent unchanged, and its stem is the original stem with exactly
the overflow amount of characters removed from the end. -/
theorem truncate_file_path_spec (p : PathParts) (m : Nat) :
    (pathLen p ≤ m → truncate_file_path p m = p)
    ∧ (m < pathLen p → pathLen p - m ≤ p.stem.length →
        pathLen (truncate_file_path p m) = m
        ∧ (truncate_file_path p m).suffix = p.suffix
        ∧ (truncate_file_path p m).parent = p.parent
        ∧ (truncate_file_path p m).stem <+: p.stem
        ∧ (truncate_file_path p m).stem.length = p.stem.length - (pathLen p - m)) := by
  constructor
  · intro h
    simp [truncate_file_path, h]
  · intro h1 h2
    have hnot : ¬ pathLen p ≤ m := by omega
    have hres : truncate_file_path p m =
        { p with stem := p.stem.take (p.stem.length - (pathLen p - m)) } := by
      rw [truncate_file_path, if_neg hnot]
    rw [hres]
    refine ⟨?_, rfl, rfl, List.take_prefix _ _, ?_⟩
    · simp only [pathLen, List.length_take] at h1 h2 ⊢
      omega
    · simp only [pathLen, List.length_take] at h1 h2 ⊢
      omega

/-- Witness for the amended C3 at the path `"out/titleXYZ.json"` (length 17)
with `max_length = 15`: overflow 2 is cut from the stem. -/
theorem truncate_file_path_spec_witness :
    pathLen
        (truncate_file_path
          ⟨['o', 'u', 't'], ['t', 'i', 't', 'l', 'e', 'X', 'Y', 'Z'],
            ['.', 'j', 's', 'o', 'n']⟩ 15) = 15
    ∧ (truncate_file_path
          ⟨['o', 'u', 't'], ['t', 'i', 't', 'l', 'e', 'X', 'Y', 'Z'],
            ['.', 'j', 's', 'o', 'n']⟩ 15).suffix = ['.', 'j', 's', 'o', 'n']
    ∧ (truncate_file_path
          ⟨['o', 'u', 't'], ['t', 'i', 't', 'l', 'e', 'X', 'Y', 'Z'],
            ['.', 'j', 's', 'o', 'n']⟩ 15).parent = ['o', 'u', 't']
    ∧ (truncate_file_path
          ⟨['o', 'u', 't'], ['t', 'i', 't', 'l', 'e', 'X', 'Y', 'Z'],
            ['.', 'j', 's', 'o', 'n']⟩ 15).stem <+:
        ['t', 'i', 't', 'l', 'e', 'X', 'Y', 'Z']
    ∧ (truncate_file_path
          ⟨['o', 'u', 't'], ['t', 'i', 't', 'l', 'e', 'X', 'Y', 'Z'],
            ['.', 'j', 's', 'o', 'n']⟩ 15).stem.length =
        (['t', 'i', 't', 'l', 'e', 'X', 'Y', 'Z'] : List Char).length -
          (pathLen
            ⟨['o', 'u', 't'], ['t', 'i', 't', 'l', 'e', 'X', 'Y', 'Z'],
              ['.', 'j', 's', 'o', 'n']⟩ - 15) :=
  (truncate_file_path_spec
    ⟨['o', 'u', 't'], ['t', 'i', 't', 'l', 'e', 'X', 'Y', 'Z'],
      ['.', 'j', 's', 'o', 'n']⟩ 15).2 (by decide) (by decide)

/-! ## HTTP resilience client (scraper.py, `BaseScaper._make_request`) -/

/-- Marker string the client searches for in response bodies
(scraper.py line 238). -/
def overload_marker : String := "O servidor encontrou um erro interno, ou está sobrecarregado"

/-- Python substring test `overload_marker in response.text`. -/
def has_overload_marker (body : String) : Bool :=
  decide (overload_marker.toList <:+: body.toList)

/-- An HTTP response as the retry loop inspects it: status code and body
text. -/
structure HttpResponse where
  status : Nat
  body : String
  deriving DecidableEq, Repr

/-- Outcome of one request attempt: either a response, or a transport
exception raised by the underlying get/post call (caught by the loop's
except clause, scraper.py lines 252-255). -/
inductive AttemptOutcome where
  | response (r : HttpResponse)
  | exn
  deriving DecidableEq, Repr

/-- Predicate: an attempt outcome that consumes a retry instead of being
returned — overload marker in the body, HTTP status 429 or 503, or a transport
exception (scraper.py lines 236-256). -/
def retryable_outcome : AttemptOutcome → Bool
  | .response r =>
      has_overload_marker r.body || decide (r.status = 429) || decide (r.status = 503)
  | .exn => true

/-- Model of the retry loop of `BaseScaper._make_request` (scraper.py lines
203-257).  `outcome` gives the result of each attempt by attempt index; the
arguments are the remaining fuel (iterations left of `for _ in range(retries)`
with `retries = 5`), the number of attempts made so far, and the trace of
`time.sleep` durations executed so far.  The result is the value handed to the
caller (`none` models `return None`), the total number of attempts made, and
the final sleep trace.  Exceptions are consumed by the loop's except clause and
never escape to the caller, which the total return type makes explicit. -/
def make_request_go (outcome : Nat → AttemptOutcome) :
    Nat → Nat → List Nat → Option HttpResponse × Nat × List Nat
  | 0, attempts, sleeps => (none, attempts, sleeps)
  | fuel + 1, attempts, sleeps =>
    match outcome attempts with
    | .exn => make_request_go outcome fuel (attempts + 1) (sleeps ++ [5])
    | .response r =>
      if has_overload_marker r.body then
        make_request_go outcome fuel (attempts + 1) (sleeps ++ [5])
      else if r.status = 429 ∨ r.status = 503 then
        make_request_go outcome fuel (attempts + 1) (sleeps ++ [5])
      else
        (some r, attempts + 1, sleeps)

/-- Entry point of `BaseScaper._make_request`, with its fixed retry count 5
(scraper.py line 213). -/
def make_request (outcome : Nat → AttemptOutcome) :
    Option HttpResponse × Nat × List Nat :=
  make_request_go outcome 5 0 []

/-- One retryable attempt consumes one unit of fuel, makes one attempt and
sleeps 5 seconds. -/
theorem make_request_go_retryable (outcome : Nat → AttemptOutcome)
    (fuel attempts : Nat) (sleeps : List Nat)
    (h : retryable_outcome (outcome attempts) = true) :
    make_request_go outcome (fuel + 1) attempts sleeps =
      make_request_go outcome fuel (attempts + 1) (sleeps ++ [5]) := by
  cases houtcome : outcome attempts with
  | exn => simp [make_request_go, houtcome]
  | response r =>
    rw [houtcome] at h
    simp only [retryable_outcome, Bool.or_eq_true, decide_eq_true_eq] at h
    simp only [make_request_go, houtcome]
    by_cases hm : has_overload_marker r.body
    · simp [hm]
    · have hst : r.status = 429 ∨ r.status = 503 := by
        rcases h with (hmk | h429) | h503
        · exact absurd hmk hm
        · exact Or.inl h429
        · exact Or.inr h503
      simp [hm, hst]

/-- After `i` retryable attempts the loop state is: fuel `5 - i`, `i` attempts
made, `i` sleeps of 5 seconds. -/
theorem make_request_go_advance (outcome : Nat → AttemptOutcome) (i : Nat)
    (hle : i ≤ 5) (h : ∀ j, j < i → retryable_outcome (outcome j) = true) :
    make_request_go outcome 5 0 [] =
      make_request_go outcome (5 - i) i (List.replicate i 5) := by
  induction i with
  | zero => rfl
  | succ n ih =>
    rw [ih (by omega) (fun j hj => h j (by omega))]
    have h5 : 5 - n = (5 - (n + 1)) + 1 := by omega
    rw [h5, make_request_go_retryable outcome _ n _ (h n (by omega)),
      List.replicate_succ']

/-- C2: when every one of the first 5 attempt outcomes is retryable (overload
marker, status 429 or 503, or a transport exception), `_make_request` makes
exactly 5 attempts, sleeps 5 seconds after each of them, and returns `None`;
no exception reaches the caller (the loop's except clause absorbs them, which
the model encodes by treating exceptions as ordinary outcome values). -/
theorem make_request_retries_exhausted (outcome : Nat → AttemptOutcome)
    (h : ∀ i, i < 5 → retryable_outcome (outcome i) = true) :
    make_request outcome = (none, 5, List.replicate 5 5) := by
  rw [make_request, make_request_go_advance outcome 5 (le_refl 5) h]
  rfl

/-- Witness for C2: a server that always answers 503. -/
theorem make_request_retries_exhausted_witness :
    make_request (fun _ => .response ⟨503, ""⟩) = (none, 5, List.replicate 5 5) :=
  make_request_retries_exhausted _ (fun i _ => by decide)

/-- C10: a response whose status is neither 429 nor 503 and whose body does not
contain the overload marker is returned to the caller on the very attempt that
produced it — including 4xx/5xx statuses such as 404 or 500 — without
consuming any further retry. -/
theorem make_request_returns_non_retryable (outcome : Nat → AttemptOutcome)
    (i : Nat) (hi : i < 5)
    (hprev : ∀ j, j < i → retryable_outcome (outcome j) = true)
    (r : HttpResponse) (hr : outcome i = .response r)
    (hmark : has_overload_marker r.body = false)
    (h429 : r.status ≠ 429) (h503 : r.status ≠ 503) :
    make_request outcome = (some r, i + 1, List.replicate i 5) := by
  rw [make_request, make_request_go_advance outcome i (by omega) hprev]
  have h5 : 5 - i = (5 - (i + 1)) + 1 := by omega
  rw [h5]
  simp only [make_request_go, hr]
  simp [hmark, h429, h503]

/-- Witness for C10: a 404 response is handed back on the first attempt. -/
theorem make_request_returns_non_retryable_witness :
    make_request (fun _ => .response ⟨404, "not found"⟩) =
      (some ⟨404, "not found"⟩, 0 + 1, List.replicate 0 5) :=
  make_request_returns_non_retryable _ 0 (by omega)
    (fun j hj => absurd hj (by omega)) ⟨404, "not found"⟩ rfl
    (by decide) (by decide) (by decide)

/-! ## Persistence Writer (saver.py, `OneDriveSaver.run` / `stop`) -/

/-- State of the writer thread: the two queues and the two on-disk trees,
each as a list of records in arrival/write order.  `α` is the record type. -/
structure SaverState (α : Type) where
  queue : List α
  error_queue : List α
  written : List α
  error_written : List α
  deriving DecidableEq, Repr

/-- Model of `OneDriveSaver.save` (saver.py lines 99-130) as it acts on the
trees: a record whose write succeeds (`save_ok`) lands in the success tree,
otherwise the except clause reroutes it to the error tree.  (The control-flow
defect of the except clause itself is modelled separately by
`save_record`.) -/
def saver_save {α : Type} (save_ok : α → Bool) (d : α) (s : SaverState α) :
    SaverState α :=
  if save_ok d then { s with written := s.written ++ [d] }
  else { s with error_written := s.error_written ++ [d] }

/-- Model of `OneDriveSaver.save_error` (saver.py lines 132-162): appends the
record to the error tree. -/
def saver_save_error {α : Type} (d : α) (s : SaverState α) : SaverState α :=
  { s with error_written := s.error_written ++ [d] }

/-- One iteration of the while-loop body of `OneDriveSaver.run` (saver.py
lines 59-70): if both queues are empty the thread just sleeps; otherwise it
takes one item from the success queue (if any) and saves it, then one item from
the error queue (if any) and saves it to the error tree. -/
def loop_iter {α : Type} (save_ok : α → Bool) (s : SaverState α) : SaverState α :=
  if s.queue.isEmpty && s.error_queue.isEmpty then s
  else
    let s1 :=
      match s.queue with
      | [] => s
      | d :: rest => saver_save save_ok d { s with queue := rest }
    match s1.error_queue with
    | [] => s1
    | d :: rest => saver_save_error d { s1 with error_queue := rest }

/-- The shutdown drain of `OneDriveSaver.run` (saver.py lines 72-78): after the
while loop exits, every remaining item of the success queue is popped and
saved; the error queue is not touched.  The first argument tracks the queue
contents (call it with `s.queue`). -/
def drain_queue {α : Type} (save_ok : α → Bool) :
    List α → SaverState α → SaverState α
  | [], s => s
  | d :: rest, s => drain_queue save_ok rest (saver_save save_ok d { s with queue := rest })

/-- Model of `OneDriveSaver.run` (saver.py lines 58-82): `stop_after` is the
iteration at which the loop's read of `self.running` first observes the `false`
written by `stop()` (saver.py lines 164-166); before that the loop body runs
once per iteration, after it the loop exits and the shutdown drain runs. -/
def saver_run {α : Type} (save_ok : α → Bool) :
    Nat → SaverState α → SaverState α
  | 0, s => drain_queue save_ok s.queue s
  | n + 1, s => saver_run save_ok n (loop_iter save_ok s)

theorem drain_queue_spec {α : Type} (save_ok : α → Bool)
    (hok : ∀ d, save_ok d = true) :
    ∀ (q : List α) (s : SaverState α), s.queue = q →
      drain_queue save_ok q s =
        { s with queue := [], written := s.written ++ q } := by
  intro q
  induction q with
  | nil =>
    intro s hs
    cases s
    simp only at hs
    simp [drain_queue, hs]
  | cons d rest ih =>
    intro s hs
    rw [drain_queue]
    have hsave : saver_save save_ok d { s with queue := rest } =
        { s with queue := rest, written := s.written ++ [d] } := by
      simp [saver_save, hok d]
    rw [hsave, ih _ rfl]
    cases s
    simp

theorem saver_run_eq_drain {α : Type} (save_ok : α → Bool) (n : Nat)
    (s : SaverState α) :
    saver_run save_ok n s =
      drain_queue save_ok ((loop_iter save_ok)^[n] s).queue
        ((loop_iter save_ok)^[n] s) := by
  induction n generalizing s with
  | zero => rfl
  | succ k ih =>
    rw [Function.iterate_succ_apply]
    exact ih (loop_iter save_ok s)

/-- C4: once `stop()` flips `running` to false (observed at iteration
`stop_after`), the run loop exits and the writer then writes every record
still in the success queue, terminating with an empty success queue, while the
records still sitting in the error queue at that moment are neither written
nor removed.  `(loop_iter save_ok)^[stop_after] s` is the state at the moment
the loop exits; the hypothesis says disk writes succeed. -/
theorem saver_stop_drains_success_queue_only {α : Type} (save_ok : α → Bool)
    (hok : ∀ d, save_ok d = true) (stop_after : Nat) (s : SaverState α) :
    (saver_run save_ok stop_after s).queue = []
    ∧ (saver_run save_ok stop_after s).written =
        ((loop_iter save_ok)^[stop_after] s).written ++
          ((loop_iter save_ok)^[stop_after] s).queue
    ∧ (saver_run save_ok stop_after s).error_written =
        ((loop_iter save_ok)^[stop_after] s).error_written
    ∧ (saver_run save_ok stop_after s).error_queue =
        ((loop_iter save_ok)^[stop_after] s).error_queue := by
  rw [saver_run_eq_drain, drain_queue_spec save_ok hok _ _ rfl]
  exact ⟨rfl, rfl, rfl, rfl⟩

/-- Witness for C4: two successes and one error queued, stop observed after 1
loop iteration. -/
theorem saver_stop_drains_success_queue_only_witness :
    (saver_run (fun _ : Nat => true) 1 ⟨[1, 2], [7], [], []⟩).queue = []
    ∧ (saver_run (fun _ : Nat => true) 1 ⟨[1, 2], [7], [], []⟩).written =
        ((loop_iter (fun _ : Nat => true))^[1] ⟨[1, 2], [7], [], []⟩).written ++
          ((loop_iter (fun _ : Nat => true))^[1] ⟨[1, 2], [7], [], []⟩).queue
    ∧ (saver_run (fun _ : Nat => true) 1 ⟨[1, 2], [7], [], []⟩).error_written =
        ((loop_iter (fun _ : Nat => true))^[1] ⟨[1, 2], [7], [], []⟩).error_written
    ∧ (saver_run (fun _ : Nat => true) 1 ⟨[1, 2], [7], [], []⟩).error_queue =
        ((loop_iter (fun _ : Nat => true))^[1] ⟨[1, 2], [7], [], []⟩).error_queue :=
  saver_stop_drains_success_queue_only (fun _ : Nat => true) (fun _ => rfl) 1
    ⟨[1, 2], [7], [], []⟩

/-! ## Saver: `save` error handling (saver.py, `OneDriveSaver.save`) -/

/-- Point at which a failure can be raised inside the `try` block of
`OneDriveSaver.save` (saver.py lines 101-126), grouped by whether the local
variable `file_path` (first assigned at line 121) is already bound when the
exception occurs. -/
inductive SaveFailure where
  | dir_creation
  | sanitization
  | file_write
  deriving DecidableEq, Repr

/-- Is the local `file_path` bound when the failure is raised?  Directory
creation (lines 103-110) and title/url sanitization (lines 113-119) happen
before the assignment at line 121; only the json write (lines 125-126) happens
after it. -/
def file_path_assigned : SaveFailure → Bool
  | .file_write => true
  | .dir_creation => false
  | .sanitization => false

/-- Observable outcome of one `save` call. -/
inductive SaveOutcome where
  | saved
  | rerouted_to_error
  | raises_unbound_local
  deriving DecidableEq, Repr

/-- Control flow of `OneDriveSaver.save` (saver.py lines 99-130).  The body is
wrapped in `try/except Exception`; the handler first evaluates
`print(f"Error saving {data['title']} to {file_path}: {e}")` and only then
calls `self.save_error(data)`.  When the failure was raised before line 121
the name `file_path` is unbound, so the print itself raises
`UnboundLocalError`, which propagates out of `save` and `save_error` is never
reached. -/
def save_record (failure : Option SaveFailure) : SaveOutcome :=
  match failure with
  | none => .saved
  | some f =>
    if file_path_assigned f then .rerouted_to_error else .raises_unbound_local

/-- C5 is a code bug: a failure during directory creation or sanitization is
raised before `file_path` is assigned, so the except clause of `save` crashes
with `UnboundLocalError` instead of rerouting the record to the error tree —
`save` raises to its caller and the record is dropped.  Only a failure in the
file write itself (after line 121) is rerouted as the claim describes. -/
theorem save_record_handler_divergence :
    save_record (some .dir_creation) = .raises_unbound_local
    ∧ save_record (some .sanitization) = .raises_unbound_local
    ∧ save_record (some .file_write) = .rerouted_to_error
    ∧ save_record none = .saved := by
  decide

/-! ## Document extractor: OCR page order
(scraper.py, `BaseScaper._get_pdf_image_markdown`) -/

/-- Model of `BaseScaper._get_pdf_image_markdown` (scraper.py lines 340-379).
`text_markdown_raw` is the direct PDF text extraction; when it is nonempty and
longer than 200 characters it is returned as is.  Otherwise the pages are
rasterized and OCRed; `page_results` holds the OCR output of each page in
original page order: the code iterates the `futures` list in submission order
(the loop comment says "not using as_completed because we want the results in
order") and `future.result()` yields the value of that page's task whatever the
completion order was, so the completion order of the parallel OCR calls cannot
influence this list.  Each page output is appended followed by a blank-line
separator, and the raw extraction is prepended to the OCR concatenation. -/
def get_pdf_image_markdown (text_markdown_raw : String)
    (page_results : List String) : String :=
  if text_markdown_raw ≠ "" ∧ text_markdown_raw.length > 200 then
    text_markdown_raw
  else
    let text_markdown_img :=
      page_results.foldl (fun acc md_content => acc ++ (md_content ++ "\n\n")) ""
    text_markdown_raw ++ text_markdown_img

theorem foldl_pages_eq_foldr (l : List String) (acc : String) :
    l.foldl (fun a page => a ++ (page ++ "\n\n")) acc =
      acc ++ l.foldr (fun page a => page ++ "\n\n" ++ a) "" := by
  induction l generalizing acc with
  | nil => simp [String.append_empty]
  | cons p rest ih =>
    simp only [List.foldl_cons, List.foldr_cons]
    rw [ih, String.append_assoc]

/-- C6: for a PDF whose direct text extraction yields at most 200 characters,
the returned markdown is the raw extraction followed by the per-page OCR
outputs concatenated in original page order, each followed by a blank-line
separator; the right fold makes the left-to-right page order explicit, and the
model takes no completion-order input because the code collects
`future.result()` in submission order. -/
theorem pdf_image_markdown_page_order (text_markdown_raw : String)
    (page_results : List String) (h : text_markdown_raw.length ≤ 200) :
    get_pdf_image_markdown text_markdown_raw page_results =
      text_markdown_raw ++
        page_results.foldr (fun page acc => page ++ "\n\n" ++ acc) "" := by
  have hcond : ¬ (text_markdown_raw ≠ "" ∧ text_markdown_raw.length > 200) := by
    rintro ⟨-, hlen⟩
    omega
  simp only [get_pdf_image_markdown, if_neg hcond]
  rw [foldl_pages_eq_foldr, String.empty_append]

/-- Witness for C6: three OCR pages reassembled behind a short raw
extraction. -/
theorem pdf_image_markdown_page_order_witness :
    get_pdf_image_markdown "raw text" ["page one", "page two", "page three"] =
      "raw text" ++
        (["page one", "page two", "page three"].foldr
          (fun page acc => page ++ "\n\n" ++ acc) "") :=
  pdf_image_markdown_page_order "raw text" ["page one", "page two", "page three"]
    (by decide)

/-! ## Document extractor: OCR retry loop
(scraper.py, `BaseScaper._get_markdown`) -/

/-- Header the external OCR service prepends, scraper.py line 113. -/
def llm_md_header : String := "\n# Description:\n"

/-- Post-processing `md_content.replace(self.llm_md_header, "").strip()`
(scraper.py lines 402 and 429). -/
def strip_llm_header (md_content : String) : String :=
  (md_content.replace llm_md_header "").trim

/-- Outcome of one `self.md.convert_stream(...)` call: the text content it
returned, or an exception (caught by the loop, scraper.py lines 412-422). -/
inductive ConvertOutcome where
  | converted (text : String)
  | raised
  deriving DecidableEq, Repr

/-- Model of `BaseScaper._get_markdown` for stream inputs (scraper.py lines
381-429).  Arguments: the remaining `fuel` of while-loop iterations we unfold
(`none` meaning the loop has not terminated within that many iterations), the
current value of `retries`, and the attempt index feeding `outcome`.  The loop
runs while `retries > 0`.  On a nonempty conversion the stripped text is
returned; on an EMPTY conversion the code hits `continue`, which jumps back to
the `while` condition WITHOUT executing the `retries -= 1` at the bottom of the
loop body; only the exception paths fall through to the decrement.  On loop
exit (`retries = 0`) the last `md_content` on every reachable path is `""`, so
the stripped empty string is returned. -/
def get_markdown_stream (outcome : Nat → ConvertOutcome) :
    Nat → Nat → Nat → Option String
  | 0, _, _ => none
  | fuel + 1, retries, attempt =>
    if retries = 0 then some (strip_llm_header "")
    else
      match outcome attempt with
      | .converted text =>
        if text = "" then get_markdown_stream outcome fuel retries (attempt + 1)
        else some (strip_llm_header text)
      | .raised => get_markdown_stream outcome fuel (retries - 1) (attempt + 1)

/-- C7 is a code bug: for a stream whose conversion returns an empty result on
every attempt (without raising), the `continue` skips the `retries -= 1`, so
`retries` stays at its default 2 forever and the loop never terminates — for
every amount of fuel the model fails to produce a result, contradicting the
claimed bound of at most `retries` attempts with `""` returned. -/
theorem get_markdown_empty_stream_never_terminates (fuel attempt : Nat) :
    get_markdown_stream (fun _ => .converted "") fuel 2 attempt = none := by
  induction fuel generalizing attempt with
  | zero => rfl
  | succ n ih => simp [get_markdown_stream, ih]

/-! ## VPN connection manager (openvpn.py, `OpenVPNManager`) -/

/-- State of the manager: `managed` is the list of managed config names
(`available_configs` keys), `active` the managed configs with a running
OpenVPN process (the tracked dict merged with processes found by command
line), `queue` the LRU rotation deque (front = least recently used). -/
structure VpnState where
  managed : List String
  active : List String
  queue : List String
  deriving DecidableEq, Repr

/-- Model of `OpenVPNManager._update_connection_queue` (openvpn.py lines
267-284): remove the name from the deque if present and append it at the back;
when absent (`ValueError`), append it only if it is a managed config. -/
def update_connection_queue (st : VpnState) (config_name : String) : VpnState :=
  if config_name ∈ st.queue then
    { st with queue := st.queue.erase config_name ++ [config_name] }
  else if config_name ∈ st.managed then
    { st with queue := st.queue ++ [config_name] }
  else st

/-- Model of `OpenVPNManager.disconnect` (openvpn.py lines 584-706),
abstracted over whether the terminate/kill of the running process succeeds
(`disconnect_ok`).  When no process runs for the config the call is an
idempotent success; on a successful kill the config's process entry is removed
(dict deletion, hence `filter`); when even the kill signal fails the process
keeps running and `False` is returned. -/
def disconnect (disconnect_ok : String → Bool) (st : VpnState)
    (config_name : String) : Bool × VpnState :=
  if config_name ∈ st.active then
    if disconnect_ok config_name then
      (true, { st with active := st.active.filter (fun n => n != config_name) })
    else (false, st)
  else (true, st)

/-- Model of `OpenVPNManager.disconnect_all` (openvpn.py lines 708-764):
attempts `disconnect` on every managed config; a failure does not abort the
remaining disconnects (the per-name results dict is not needed here). -/
def disconnect_all (disconnect_ok : String → Bool) (st : VpnState) : VpnState :=
  st.managed.foldl (fun s n => (disconnect disconnect_ok s n).2) st

/-- Model of `OpenVPNManager.connect` (openvpn.py lines 324-577) as it acts on
the manager state: `False` for an unmanaged name; no-op success when a process
already serves the config (tracked or found by command line), which still
marks the config most recently used; otherwise the process launch and
stability wait either succeed (`connect_ok`, adding the process and updating
the queue) or fail on one of the error paths, all of which return `False` and
leave the queue untouched. -/
def connect (connect_ok : String → Bool) (st : VpnState) (config_name : String) :
    Bool × VpnState :=
  if config_name ∈ st.managed then
    if config_name ∈ st.active then
      (true, update_connection_queue st config_name)
    else if connect_ok config_name then
      (true,
        update_connection_queue
          { st with active := st.active ++ [config_name] } config_name)
    else (false, st)
  else (false, st)

/-- Model of `OpenVPNManager.change_vpn_connection` (openvpn.py lines
766-802): peek the front (least recently used) of the rotation queue, fail if
the queue is empty, otherwise disconnect all managed connections and connect
to the peeked config, returning that connect's result. -/
def change_vpn_connection (disconnect_ok connect_ok : String → Bool)
    (st : VpnState) : Bool × VpnState :=
  match st.queue with
  | [] => (false, st)
  | next_config :: _ =>
    connect connect_ok (disconnect_all disconnect_ok st) next_config

theorem update_connection_queue_frame (st : VpnState) (n : String) :
    (update_connection_queue st n).managed = st.managed
    ∧ (update_connection_queue st n).active = st.active := by
  rw [update_connection_queue]
  split
  · exact ⟨rfl, rfl⟩
  · split
    · exact ⟨rfl, rfl⟩
    · exact ⟨rfl, rfl⟩

theorem disconnect_frame (dok : String → Bool) (st : VpnState) (n : String) :
    (disconnect dok st n).2.managed = st.managed
    ∧ (disconnect dok st n).2.queue = st.queue := by
  rw [disconnect]
  split
  · split
    · exact ⟨rfl, rfl⟩
    · exact ⟨rfl, rfl⟩
  · exact ⟨rfl, rfl⟩

theorem disconnect_active_subset (dok : String → Bool) (st : VpnState)
    (n m : String) (h : m ∈ (disconnect dok st n).2.active) : m ∈ st.active := by
  rw [disconnect] at h
  split at h
  · split at h
    · exact List.mem_of_mem_filter h
    · exact h
  · exact h

theorem disconnect_kills (dok : String → Bool) (st : VpnState) (m : String)
    (hdok : dok m = true) : m ∉ (disconnect dok st m).2.active := by
  rw [disconnect]
  by_cases hin : m ∈ st.active
  · rw [if_pos hin, if_pos hdok]
    intro hmem
    have := List.of_mem_filter hmem
    simp at this
  · rw [if_neg hin]
    exact hin

theorem disconnect_all_go_frame (dok : String → Bool) (l : List String)
    (s : VpnState) :
    (l.foldl (fun s n => (disconnect dok s n).2) s).managed = s.managed
    ∧ (l.foldl (fun s n => (disconnect dok s n).2) s).queue = s.queue := by
  induction l generalizing s with
  | nil => exact ⟨rfl, rfl⟩
  | cons a l ih =>
    simp only [List.foldl_cons]
    obtain ⟨h1, h2⟩ := ih ((disconnect dok s a).2)
    obtain ⟨h3, h4⟩ := disconnect_frame dok s a
    exact ⟨h1.trans h3, h2.trans h4⟩

theorem disconnect_all_go_mono (dok : String → Bool) (l : List String)
    (s : VpnState) (m : String) (hm : m ∉ s.active) :
    m ∉ (l.foldl (fun s n => (disconnect dok s n).2) s).active := by
  induction l generalizing s with
  | nil => exact hm
  | cons a l ih =>
    simp only [List.foldl_cons]
    refine ih _ (fun hmem => hm ?_)
    exact disconnect_active_subset dok s a m hmem

theorem disconnect_all_go_kills (dok : String → Bool) (l : List String)
    (s : VpnState) (m : String) (hdok : dok m = true) :
    m ∈ l → m ∉ (l.foldl (fun s n => (disconnect dok s n).2) s).active := by
  induction l generalizing s with
  | nil =>
    intro hml
    exact absurd hml (List.not_mem_nil m)
  | cons a l ih =>
    intro hml
    simp only [List.foldl_cons]
    rcases List.mem_cons.mp hml with rfl | hml2
    · exact disconnect_all_go_mono dok l _ m (disconnect_kills dok s m hdok)
    · exact ih _ hml2

theorem update_connection_queue_moves_head (st : VpnState) (next_config : String)
    (rest : List String) (hq : st.queue = next_config :: rest) :
    (update_connection_queue st next_config).queue = rest ++ [next_config] := by
  rw [update_connection_queue,
    if_pos (by rw [hq]; exact List.mem_cons_self _ _)]
  show st.queue.erase next_config ++ [next_config] = rest ++ [next_config]
  rw [hq, List.erase_cons_head]

theorem connect_active_subset (cok : String → Bool) (st : VpnState)
    (name m : String) (hne : m ≠ name)
    (h : m ∈ (connect cok st name).2.active) : m ∈ st.active := by
  rw [connect] at h
  split at h
  · split at h
    · rwa [(update_connection_queue_frame st name).2] at h
    · split at h
      · rw [(update_connection_queue_frame _ name).2] at h
        rcases List.mem_append.mp h with h1 | h1
        · exact h1
        · exact absurd (List.mem_singleton.mp h1) hne
      · exact h
  · exact h

/-- C8: when the rotation queue is `next_config :: rest` and
`change_vpn_connection` succeeds, the front config has been moved to the back
of the queue with the relative order of the other entries preserved
(`rest ++ [next_config]`), and every previously running managed connection
whose termination succeeds — other than the one just connected — is no longer
running, every managed config having first been given a disconnect attempt. -/
theorem change_vpn_connection_rotates (disconnect_ok connect_ok : String → Bool)
    (st : VpnState) (next_config : String) (rest : List String)
    (hq : st.queue = next_config :: rest)
    (hs : (change_vpn_connection disconnect_ok connect_ok st).1 = true) :
    (change_vpn_connection disconnect_ok connect_ok st).2.queue =
        rest ++ [next_config]
    ∧ ∀ n, n ∈ st.active → n ∈ st.managed → disconnect_ok n = true →
        n ≠ next_config →
        n ∉ (change_vpn_connection disconnect_ok connect_ok st).2.active := by
  have hch : change_vpn_connection disconnect_ok connect_ok st =
      connect connect_ok (disconnect_all disconnect_ok st) next_config := by
    rw [change_vpn_connection, hq]
  have hq1 : (disconnect_all disconnect_ok st).queue = next_config :: rest := by
    rw [disconnect_all, (disconnect_all_go_frame disconnect_ok st.managed st).2, hq]
  rw [hch] at hs ⊢
  constructor
  · rw [connect]
    by_cases hm : next_config ∈ (disconnect_all disconnect_ok st).managed
    · rw [if_pos hm]
      by_cases ha : next_config ∈ (disconnect_all disconnect_ok st).active
      · rw [if_pos ha]
        exact update_connection_queue_moves_head _ _ _ hq1
      · rw [if_neg ha]
        by_cases hc : connect_ok next_config = true
        · rw [if_pos hc]
          exact update_connection_queue_moves_head _ _ _ hq1
        · rw [connect, if_pos hm, if_neg ha, if_neg hc] at hs
          simp at hs
    · rw [connect, if_neg hm] at hs
      simp at hs
  · intro n hna hnm hdok hne
    intro hmem
    have h1 : n ∈ (disconnect_all disconnect_ok st).active :=
      connect_active_subset connect_ok _ next_config n hne hmem
    exact disconnect_all_go_kills disconnect_ok st.managed st n hdok hnm h1

/-- Witness for C8: two managed configs, `"beta"` running, queue
`["alpha", "beta"]`; all terminations and the launch succeed. -/
theorem change_vpn_connection_rotates_witness :
    (change_vpn_connection (fun _ => true) (fun _ => true)
        ⟨["alpha", "beta"], ["beta"], ["alpha", "beta"]⟩).2.queue =
      ["beta"] ++ ["alpha"]
    ∧ ∀ n, n ∈ (⟨["alpha", "beta"], ["beta"], ["alpha", "beta"]⟩ : VpnState).active →
        n ∈ (⟨["alpha", "beta"], ["beta"], ["alpha", "beta"]⟩ : VpnState).managed →
        (fun _ : String => true) n = true → n ≠ "alpha" →
        n ∉ (change_vpn_connection (fun _ => true) (fun _ => true)
            ⟨["alpha", "beta"], ["beta"], ["alpha", "beta"]⟩).2.active :=
  change_vpn_connection_rotates (fun _ => true) (fun _ => true)
    ⟨["alpha", "beta"], ["beta"], ["alpha", "beta"]⟩ "alpha" ["beta"] rfl
    (by decide)

/-! ## VPN connection manager: credential-file lifecycle
(openvpn.py, `OpenVPNManager.connect`) -/

/-- Control-flow paths of `OpenVPNManager.connect` (openvpn.py lines 324-577),
named after the code branch that decides them. -/
inductive ConnectPath where
  /-- Name not in `available_configs`: early return `False` (lines 340-345). -/
  | not_managed
  /-- A tracked process is alive: early return `True` (lines 352-361). -/
  | already_tracked
  /-- An untracked process matching the config path is running: early return
  `True` (lines 370-384). -/
  | already_running_untracked
  /-- `tempfile.mkstemp` itself raises (line 407): no file is created
  (`mkstemp` creates the file atomically or raises without creating it). -/
  | cred_mkstemp_fails
  /-- `tempfile.mkstemp` created the file but `os.fdopen` or the credential
  write raises (lines 410-411), before the assignment
  `temp_cred_file = Path(temp_cred_path_str)` at line 412; the creation-failure
  handler at lines 415-423 then runs with `temp_cred_file` still `None`. -/
  | cred_write_fails
  /-- `subprocess.Popen` or later setup raises (`FileNotFoundError`,
  `PermissionError` or any other exception, lines 547-567). -/
  | launch_raises
  /-- The process terminates within the first second (lines 464-472). -/
  | quick_exit
  /-- The process terminates or disappears during the stability window
  (lines 478-504). -/
  | died_during_wait
  /-- The process is found but not running, or gone, after the stability
  window (lines 524-532). -/
  | not_running_after_timeout
  /-- The process is stable after the window: success (lines 508-523). -/
  | stable
  deriving DecidableEq, Repr

/-- Result of one `connect` call, tracking the temporary credential file:
whether a file was created during the call, and whether it still exists on
disk when `connect` returns. -/
structure ConnectResult where
  success : Bool
  cred_file_created : Bool
  cred_file_on_disk : Bool
  deriving DecidableEq, Repr

/-- The creation-failure handler of `connect` (openvpn.py lines 415-423):
`if temp_cred_file and temp_cred_file.exists(): os.remove(temp_cred_file)`.
The guard tests the `temp_cred_file` VARIABLE, not the file `mkstemp` created:
removal happens only if the path assignment at line 412 had already run.  In
the code, every exception that reaches this handler is raised at lines 407-411,
before that assignment (after it, only `command.extend` of a list remains in
the `try`), so the handler is always called with the flag false. -/
def creation_failure_handler (temp_cred_file_assigned : Bool)
    (r : ConnectResult) : ConnectResult :=
  if temp_cred_file_assigned && r.cred_file_on_disk then
    { r with cred_file_on_disk := false }
  else r

/-- The `finally` block of `connect` (openvpn.py lines 568-577):
`if temp_cred_file and temp_cred_file.exists(): os.remove(temp_cred_file)`.
On every path that reaches the launch `try`, `temp_cred_file` is assigned
exactly when the file was created, so the guard is modelled on
`cred_file_created`.  The `os.remove` of the just-created temporary file is
modelled as succeeding. -/
def finally_remove_cred_file (r : ConnectResult) : ConnectResult :=
  if r.cred_file_created && r.cred_file_on_disk then
    { r with cred_file_on_disk := false }
  else r

/-- Model of `OpenVPNManager.connect` (openvpn.py lines 324-577) restricted to
the temporary credential file it manages.  `creds_found` is whether per-config
or default credentials exist (lines 386-397); without credentials no file is
ever written.  The two early-success paths and the unmanaged-name path return
before the file is created.  A creation failure runs the handler at lines
415-423, whose removal guard is dead because `temp_cred_file` is still `None`
there: when `mkstemp` succeeded but the write failed, the created file stays
on disk.  Every path that enters the launch `try` — exception, early process
death, instability, timeout failure or stable success — exits through the
`finally` block that deletes the file. -/
def connect_cred_file (creds_found : Bool) (path : ConnectPath) : ConnectResult :=
  match path with
  | .not_managed => ⟨false, false, false⟩
  | .already_tracked => ⟨true, false, false⟩
  | .already_running_untracked => ⟨true, false, false⟩
  | .cred_mkstemp_fails => creation_failure_handler false ⟨false, false, false⟩
  | .cred_write_fails =>
    creation_failure_handler false ⟨false, creds_found, creds_found⟩
  | .launch_raises => finally_remove_cred_file ⟨false, creds_found, creds_found⟩
  | .quick_exit => finally_remove_cred_file ⟨false, creds_found, creds_found⟩
  | .died_during_wait => finally_remove_cred_file ⟨false, creds_found, creds_found⟩
  | .not_running_after_timeout =>
    finally_remove_cred_file ⟨false, creds_found, creds_found⟩
  | .stable => finally_remove_cred_file ⟨true, creds_found, creds_found⟩

/-- C9 is a code bug: when `tempfile.mkstemp` has created the credential file
but the subsequent `os.fdopen`/`f.write` raises, the except handler runs with
`temp_cred_file` still `None` — it is assigned only at line 412, after the
write — so the removal guard `if temp_cred_file and temp_cred_file.exists()`
is dead on exactly this path and the `mkstemp` file is still on disk when
`connect` returns `False`.  A file was created by the invocation and it
remains on disk at return, refuting the claimed removal on every outcome. -/
theorem connect_cred_file_leaks_on_write_failure :
    (connect_cred_file true .cred_write_fails).cred_file_created = true
    ∧ (connect_cred_file true .cred_write_fails).cred_file_on_disk = true
    ∧ (connect_cred_file true .cred_write_fails).success = false := by
  decide

/-- Every path that reaches the launch `try`/`finally` — the outcomes the
claim enumerates: stable success, fast process exit, instability during the
wait window, timeout, and exceptions raised while launching — does remove the
credential file; the leak is confined to the creation-failure path. -/
theorem connect_cred_file_removed_after_launch (creds_found : Bool)
    (path : ConnectPath) (hpath : path ≠ .cred_write_fails)
    (h : (connect_cred_file creds_found path).cred_file_created = true) :
    (connect_cred_file creds_found path).cred_file_on_disk = false := by
  cases path <;> cases creds_found <;>
    simp_all [connect_cred_file, creation_failure_handler,
      finally_remove_cred_file]

end LegScraper
